import Mathlib

/-!
Shallow embedding of the spatial core of the Walkspan backend:
`getBoundingBoxFromCoordinatesAndRange` (src/lib/geocoder.js) and
`getClosestSidewalk` / `getSidewalksInRadius` (src/model/db.js).
Database tables are embedded as lists of row records, so the SQL queries
become sorting and filtering of those lists; JavaScript numbers are embedded
as real numbers; the JavaScript `undefined` produced by indexing an empty
array is embedded as `Option.none`.
-/

open Classical

namespace Walkspan

/-- A row of the `Walkspan` table, with exactly the columns selected by the
queries in src/model/db.js. -/
structure SidewalkRow where
  natural_beauty_score : ℝ
  manmade_beauty_score : ℝ
  comfort_score : ℝ
  interest_score : ℝ
  safety_score : ℝ
  access_score : ℝ
  amenities_score : ℝ
  sidewalk_starting_longitude : ℝ
  sidewalk_ending_longitude : ℝ
  sidewalk_starting_latitude : ℝ
  sidewalk_ending_latitude : ℝ

/-- A row of the `Bronx_Walkability` table, with exactly the columns selected
by the second (dead) query of `getClosestSidewalk`. -/
structure BronxRow where
  total1 : ℝ
  total2 : ℝ
  beauty_n : ℝ
  beauty_m : ℝ
  access : ℝ
  interest : ℝ
  amenities : ℝ
  shape_length : ℝ
  start_long : ℝ
  end_long : ℝ
  start_lat : ℝ
  end_lat : ℝ

/-- The record returned by `getBoundingBoxFromCoordinatesAndRange`. -/
structure BoundingBox where
  topLat : ℝ
  bottomLat : ℝ
  leftLng : ℝ
  rightLng : ℝ

/-- Embedding of `getBoundingBoxFromCoordinatesAndRange` from
src/lib/geocoder.js, keeping the source's intermediate constants. -/
noncomputable def getBoundingBoxFromCoordinatesAndRange
    (latitude longitude range : ℝ) : BoundingBox :=
  let pDistanceInMeters : ℝ := range * 1609.344
  let latRadian : ℝ := latitude * Real.pi / 180
  let degLatKm : ℝ := 110.574235
  let degLongKm : ℝ := 110.572833 * Real.cos latRadian
  let deltaLat : ℝ := pDistanceInMeters / 1000.0 / degLatKm
  let deltaLong : ℝ := pDistanceInMeters / 1000.0 / degLongKm
  { topLat := latitude + deltaLat
    bottomLat := latitude - deltaLat
    leftLng := longitude - deltaLong
    rightLng := longitude + deltaLong }

/-- Modelled from the spec: the `distance-to-line-segment` npm package used by
src/model/db.js is a dependency whose code is not part of the repository.
Following section 4.1 of the spec, this is the squared minimum Euclidean
distance from the point `(px, py)` to the segment from `(lx1, ly1)` to
`(lx2, ly2)`, where a degenerate zero-length segment collapses to the
point-to-point distance. -/
noncomputable def distanceToLineSegmentSquared
    (lx1 ly1 lx2 ly2 px py : ℝ) : ℝ :=
  let ldx := lx2 - lx1
  let ldy := ly2 - ly1
  let lineLengthSquared := ldx ^ 2 + ldy ^ 2
  let t0 : ℝ :=
    if lineLengthSquared = 0 then 0
    else (ldx * (px - lx1) + ldy * (py - ly1)) / lineLengthSquared
  let t := max 0 (min 1 t0)
  (px - (lx1 + t * ldx)) ^ 2 + (py - (ly1 + t * ldy)) ^ 2

/-- Modelled from the spec: minimum Euclidean distance from a point to a line
segment, the square root of `distanceToLineSegmentSquared`. -/
noncomputable def distanceToLineSegment (lx1 ly1 lx2 ly2 px py : ℝ) : ℝ :=
  Real.sqrt (distanceToLineSegmentSquared lx1 ly1 lx2 ly2 px py)

variable {α : Type*}

/-- The comparison underscore's `sortBy` sorts with: elements are ordered by
their computed criteria, with ties broken by original position, which makes
the sort stable. -/
def sortByRel (key : α → ℝ) (p q : ℕ × α) : Prop :=
  key p.2 < key q.2 ∨ (key p.2 = key q.2 ∧ p.1 ≤ q.1)

instance (key : α → ℝ) : IsTotal (ℕ × α) (sortByRel key) where
  total p q := by
    rcases lt_trichotomy (key p.2) (key q.2) with h | h | h
    · exact Or.inl (Or.inl h)
    · rcases Nat.le_total p.1 q.1 with hn | hn
      · exact Or.inl (Or.inr ⟨h, hn⟩)
      · exact Or.inr (Or.inr ⟨h.symm, hn⟩)
    · exact Or.inr (Or.inl h)

instance (key : α → ℝ) : IsTrans (ℕ × α) (sortByRel key) where
  trans p q s hpq hqs := by
    rcases hpq with h1 | ⟨h1, hi1⟩
    · rcases hqs with h2 | ⟨h2, _⟩
      · exact Or.inl (h1.trans h2)
      · exact Or.inl (h2 ▸ h1)
    · rcases hqs with h2 | ⟨h2, hi2⟩
      · exact Or.inl (h1 ▸ h2)
      · exact Or.inr ⟨h1.trans h2, hi1.trans hi2⟩

/-- Embedding of underscore's `sortBy`: pair every element with its index,
sort the pairs by criteria with index tie-break, and project the elements
back out. -/
noncomputable def sortBy (key : α → ℝ) (l : List α) : List α :=
  (List.insertionSort (sortByRel key) l.enum).map Prod.snd

/-- The `ORDER BY MIN(ABS(..) + ABS(..), ABS(..) + ABS(..))` key of the
`Walkspan` candidate query in `getClosestSidewalk`: the smaller of the
Manhattan distances from the query point to the two endpoints. -/
noncomputable def walkspanManhattanKey (latitude longitude : ℝ)
    (s : SidewalkRow) : ℝ :=
  min (|s.sidewalk_starting_latitude - latitude| +
        |s.sidewalk_starting_longitude - longitude|)
    (|s.sidewalk_ending_latitude - latitude| +
      |s.sidewalk_ending_longitude - longitude|)

/-- The `SELECT ... FROM Walkspan ORDER BY ... ASC LIMIT 8` candidate query of
`getClosestSidewalk`: the 8 rows with smallest endpoint Manhattan distance to
the query point. -/
noncomputable def sidewalkCandidates (walkspanTable : List SidewalkRow)
    (latitude longitude : ℝ) : List SidewalkRow :=
  (sortBy (walkspanManhattanKey latitude longitude) walkspanTable).take 8

/-- The Manhattan ordering key of the `Bronx_Walkability` candidate query. -/
noncomputable def bronxManhattanKey (latitude longitude : ℝ)
    (s : BronxRow) : ℝ :=
  min (|s.start_lat - latitude| + |s.start_long - longitude|)
    (|s.end_lat - latitude| + |s.end_long - longitude|)

/-- The `SELECT ... FROM Bronx_Walkability ORDER BY ... ASC LIMIT 8` candidate
query of `getClosestSidewalk`. -/
noncomputable def sidewalkCandidates2 (bronxTable : List BronxRow)
    (latitude longitude : ℝ) : List BronxRow :=
  (sortBy (bronxManhattanKey latitude longitude) bronxTable).take 8

/-- The ranking function of the final `sortBy` in `getClosestSidewalk`: exact
point-to-segment distance from the query point to the candidate sidewalk. -/
noncomputable def exactDistance (latitude longitude : ℝ)
    (sidewalkCandidate : SidewalkRow) : ℝ :=
  distanceToLineSegment
    sidewalkCandidate.sidewalk_starting_latitude
    sidewalkCandidate.sidewalk_starting_longitude
    sidewalkCandidate.sidewalk_ending_latitude
    sidewalkCandidate.sidewalk_ending_longitude
    latitude
    longitude

/-- Embedding of `getClosestSidewalk` from src/model/db.js. Both candidate
queries run before the first `return`, so both appear here; the second
`return` (sorting the Bronx candidates) sits after the unconditional first
`return` and never executes, so only the first `return` is embedded. Indexing
`[0]` of the sorted array is `head?`: `undefined` on an empty array becomes
`none`. -/
noncomputable def getClosestSidewalk (walkspanTable : List SidewalkRow)
    (bronxTable : List BronxRow) (latitude longitude : ℝ) :
    Option SidewalkRow :=
  let candidates := sidewalkCandidates walkspanTable latitude longitude
  let candidates2 := sidewalkCandidates2 bronxTable latitude longitude
  (sortBy (exactDistance latitude longitude) candidates).head?

/-- The `WHERE` predicate of the range query in `getSidewalksInRadius`: the
start endpoint or the end endpoint lies within the bounding box, with all
four bounds inclusive. -/
def inRadiusPred (bb : BoundingBox) (s : SidewalkRow) : Prop :=
  (bb.bottomLat ≤ s.sidewalk_starting_latitude ∧
      s.sidewalk_starting_latitude ≤ bb.topLat ∧
      bb.leftLng ≤ s.sidewalk_starting_longitude ∧
      s.sidewalk_starting_longitude ≤ bb.rightLng) ∨
  (bb.bottomLat ≤ s.sidewalk_ending_latitude ∧
      s.sidewalk_ending_latitude ≤ bb.topLat ∧
      bb.leftLng ≤ s.sidewalk_ending_longitude ∧
      s.sidewalk_ending_longitude ≤ bb.rightLng)

/-- Embedding of `getSidewalksInRadius` from src/model/db.js. The first
`return` answers the query from the `Walkspan` table; the second query, over
`Bronx_Walkability`, sits after that unconditional `return` and never runs,
so it is not embedded. -/
noncomputable def getSidewalksInRadius (walkspanTable : List SidewalkRow)
    (latitude longitude range : ℝ) : List SidewalkRow :=
  let bb := getBoundingBoxFromCoordinatesAndRange latitude longitude range
  walkspanTable.filter fun s => decide (inRadiusPred bb s)

/-- The head of `sortBy key l`, for nonempty `l`, is the first element of `l`
attaining the minimum of `key`: it exists at some index `i`, its key is at
most every key in `l`, and every index whose key ties it is at least `i`. -/
theorem sortBy_head_spec (key : α → ℝ) (l : List α) (h : l ≠ []) :
    ∃ (s : α) (i : ℕ) (hi : i < l.length),
      (sortBy key l).head? = some s ∧ l.get ⟨i, hi⟩ = s ∧
      (∀ t ∈ l, key s ≤ key t) ∧
      (∀ (j : ℕ) (hj : j < l.length), key (l.get ⟨j, hj⟩) = key s → i ≤ j) := by
  have hperm : List.Perm (List.insertionSort (sortByRel key) l.enum) l.enum :=
    List.perm_insertionSort _ _
  have hLne : List.insertionSort (sortByRel key) l.enum ≠ [] := by
    intro h0
    exact h (List.enum_eq_nil.mp (List.eq_nil_of_length_eq_zero
      (by rw [← hperm.length_eq, h0, List.length_nil])))
  obtain ⟨hd, tl, hL⟩ := List.exists_cons_of_ne_nil hLne
  have hsorted : List.Sorted (sortByRel key) (hd :: tl) := by
    rw [← hL]; exact List.sorted_insertionSort _ _
  have hrel : ∀ b ∈ tl, sortByRel key hd b := List.rel_of_sorted_cons hsorted
  have hmem_all : ∀ x ∈ l.enum, x = hd ∨ x ∈ tl := by
    intro x hx
    have : x ∈ hd :: tl := by rw [← hL]; exact hperm.mem_iff.mpr hx
    exact (List.mem_cons.mp this)
  have hhd_mem : hd ∈ l.enum := by
    have : hd ∈ hd :: tl := List.mem_cons_self hd tl
    rw [← hL] at this
    exact hperm.subset this
  have hhd_get : l[hd.1]? = some hd.2 := List.mem_enum_iff_getElem?.mp hhd_mem
  obtain ⟨hi, hget⟩ := List.getElem?_eq_some_iff.mp hhd_get
  refine ⟨hd.2, hd.1, hi, ?_, by simpa using hget, ?_, ?_⟩
  · show ((List.insertionSort (sortByRel key) l.enum).map Prod.snd).head? = _
    rw [hL]
    rfl
  · intro t ht
    obtain ⟨j, hj, hjt⟩ := List.mem_iff_getElem.mp ht
    have hjmem : (j, t) ∈ l.enum := by
      apply List.mem_enum_iff_getElem?.mpr
      simpa using List.getElem?_eq_some_iff.mpr ⟨hj, hjt⟩
    rcases hmem_all _ hjmem with heq | htl
    · rw [show hd.2 = t from congrArg Prod.snd heq.symm]
    · rcases hrel _ htl with hlt | ⟨heq, _⟩
      · exact le_of_lt hlt
      · exact le_of_eq heq
  · intro j hj hkey
    have hjmem : (j, l.get ⟨j, hj⟩) ∈ l.enum := by
      apply List.mem_enum_iff_getElem?.mpr
      simp
    rcases hmem_all _ hjmem with heq | htl
    · exact le_of_eq (congrArg Prod.fst heq.symm)
    · rcases hrel _ htl with hlt | ⟨_, hle⟩
      · exact absurd hkey (by simp only [List.get_eq_getElem] at hlt ⊢; exact ne_of_gt hlt)
      · exact hle

/-- A concrete `Walkspan` row used to instantiate theorems, carrying the score
tuple pinned by the repository's unit test. -/
noncomputable def sampleRow : SidewalkRow :=
  ⟨1, 1, 1, 1, 3, 3, 1, 0, 0, 0, 0⟩

/-- C1: for every query point and every non-empty candidate list retrieved by
the pre-filter, `getClosestSidewalk` returns a segment that is a member of the
K=8 retrieved candidates, whose exact point-to-segment distance is at most the
exact distance of every other candidate, with ties broken by first-encountered
order (stable sort). -/
theorem getClosestSidewalk_nearest (walkspanTable : List SidewalkRow)
    (bronxTable : List BronxRow) (latitude longitude : ℝ)
    (h : sidewalkCandidates walkspanTable latitude longitude ≠ []) :
    ∃ (s : SidewalkRow) (i : ℕ)
      (hi : i < (sidewalkCandidates walkspanTable latitude longitude).length),
      getClosestSidewalk walkspanTable bronxTable latitude longitude = some s ∧
      s ∈ sidewalkCandidates walkspanTable latitude longitude ∧
      (sidewalkCandidates walkspanTable latitude longitude).get ⟨i, hi⟩ = s ∧
      (∀ t ∈ sidewalkCandidates walkspanTable latitude longitude,
        exactDistance latitude longitude s ≤ exactDistance latitude longitude t) ∧
      (∀ (j : ℕ)
        (hj : j < (sidewalkCandidates walkspanTable latitude longitude).length),
        exactDistance latitude longitude
            ((sidewalkCandidates walkspanTable latitude longitude).get ⟨j, hj⟩) =
          exactDistance latitude longitude s → i ≤ j) := by
  obtain ⟨s, i, hi, hhead, hget, hmin, hfirst⟩ :=
    sortBy_head_spec (exactDistance latitude longitude)
      (sidewalkCandidates walkspanTable latitude longitude) h
  refine ⟨s, i, hi, hhead, ?_, hget, hmin, hfirst⟩
  rw [← hget]
  exact List.get_mem _ _ _

/-- Witness for C1 at a one-row table and query point (0, 0). -/
theorem getClosestSidewalk_nearest_witness :
    sidewalkCandidates [sampleRow] 0 0 ≠ [] ∧
    ∃ (s : SidewalkRow) (i : ℕ)
      (hi : i < (sidewalkCandidates [sampleRow] 0 0).length),
      getClosestSidewalk [sampleRow] [] 0 0 = some s ∧
      s ∈ sidewalkCandidates [sampleRow] 0 0 ∧
      (sidewalkCandidates [sampleRow] 0 0).get ⟨i, hi⟩ = s ∧
      (∀ t ∈ sidewalkCandidates [sampleRow] 0 0,
        exactDistance 0 0 s ≤ exactDistance 0 0 t) ∧
      (∀ (j : ℕ) (hj : j < (sidewalkCandidates [sampleRow] 0 0).length),
        exactDistance 0 0 ((sidewalkCandidates [sampleRow] 0 0).get ⟨j, hj⟩) =
          exactDistance 0 0 s → i ≤ j) :=
  ⟨List.cons_ne_nil _ _,
    getClosestSidewalk_nearest [sampleRow] [] 0 0 (List.cons_ne_nil _ _)⟩

/-- C2: on an empty dataset the candidate query yields zero rows and
`getClosestSidewalk` produces no segment: the embedded result is `none`
(JavaScript `undefined` from indexing the empty sorted array), distinct from
every `some` segment result. -/
theorem getClosestSidewalk_empty_dataset (bronxTable : List BronxRow)
    (latitude longitude : ℝ) :
    getClosestSidewalk [] bronxTable latitude longitude = none := rfl

/-- C8: the result of `getClosestSidewalk` is computed solely from the
`Walkspan` candidates; the second sort-and-return over the
`Bronx_Walkability` candidates is unreachable, so the result does not depend
on the Bronx table at all and the two sources are never mixed. -/
theorem getClosestSidewalk_source_independent (walkspanTable : List SidewalkRow)
    (bronxTable bronxTable2 : List BronxRow) (latitude longitude : ℝ) :
    getClosestSidewalk walkspanTable bronxTable latitude longitude =
      getClosestSidewalk walkspanTable bronxTable2 latitude longitude := rfl

/-- C7: for a degenerate segment whose start and end coincide, the
point-to-segment distance is total and equals the Euclidean point-to-point
distance from the query point to that coordinate. -/
theorem distanceToLineSegment_degenerate (lx1 ly1 lx2 ly2 px py : ℝ)
    (h1 : lx2 = lx1) (h2 : ly2 = ly1) :
    distanceToLineSegment lx1 ly1 lx2 ly2 px py =
      Real.sqrt ((px - lx1) ^ 2 + (py - ly1) ^ 2) := by
  subst h1 h2
  simp [distanceToLineSegment, distanceToLineSegmentSquared]

/-- Witness for C7: a degenerate segment at the origin and the point (3, 4),
at Euclidean distance 5, yield distance exactly 5. -/
theorem distanceToLineSegment_degenerate_witness :
    distanceToLineSegment 0 0 0 0 3 4 = 5 := by
  rw [distanceToLineSegment_degenerate 0 0 0 0 3 4 rfl rfl]
  rw [show ((3 : ℝ) - 0) ^ 2 + ((4 : ℝ) - 0) ^ 2 = 5 ^ 2 by norm_num]
  exact Real.sqrt_sq (by norm_num)

/-- C3: the bounding box is exactly the center shifted by
`deltaLat = (r * 1609.344 / 1000) / 110.574235` and
`deltaLng = (r * 1609.344 / 1000) / (110.572833 * cos(lat * pi / 180))`. -/
theorem getBoundingBox_formula (latitude longitude range : ℝ) :
    getBoundingBoxFromCoordinatesAndRange latitude longitude range =
      { topLat := latitude + (range * 1609.344 / 1000) / 110.574235
        bottomLat := latitude - (range * 1609.344 / 1000) / 110.574235
        leftLng := longitude - (range * 1609.344 / 1000) /
          (110.572833 * Real.cos (latitude * Real.pi / 180))
        rightLng := longitude + (range * 1609.344 / 1000) /
          (110.572833 * Real.cos (latitude * Real.pi / 180)) } := by
  simp only [getBoundingBoxFromCoordinatesAndRange, BoundingBox.mk.injEq]
  norm_num

/-- C10: the bounding box is symmetric about its center point. -/
theorem getBoundingBox_symmetric (latitude longitude range : ℝ) :
    (getBoundingBoxFromCoordinatesAndRange latitude longitude range).topLat -
        latitude =
      latitude -
        (getBoundingBoxFromCoordinatesAndRange latitude longitude range).bottomLat ∧
    (getBoundingBoxFromCoordinatesAndRange latitude longitude range).rightLng -
        longitude =
      longitude -
        (getBoundingBoxFromCoordinatesAndRange latitude longitude range).leftLng := by
  simp only [getBoundingBoxFromCoordinatesAndRange]
  constructor <;> ring

/-- For a latitude strictly between -90 and 90 degrees, the cosine of the
latitude in radians, as computed by the bounding-box function, is positive. -/
theorem cos_latRadian_pos (latitude : ℝ) (h : |latitude| < 90) :
    0 < Real.cos (latitude * Real.pi / 180) := by
  have hpi := Real.pi_pos
  have h1 : -90 < latitude := (abs_lt.mp h).1
  have h2 : latitude < 90 := (abs_lt.mp h).2
  refine Real.cos_pos_of_mem_Ioo ⟨?_, ?_⟩
  · nlinarith [mul_pos hpi (show (0 : ℝ) < latitude + 90 by linarith)]
  · nlinarith [mul_pos hpi (show (0 : ℝ) < 90 - latitude by linarith)]

/-- C6: for a positive range and a latitude strictly inside the poles, the
bounding box is properly ordered on both axes. -/
theorem getBoundingBox_ordered (latitude longitude range : ℝ)
    (hlat : |latitude| < 90) (hr : 0 < range) :
    (getBoundingBoxFromCoordinatesAndRange latitude longitude range).bottomLat <
      (getBoundingBoxFromCoordinatesAndRange latitude longitude range).topLat ∧
    (getBoundingBoxFromCoordinatesAndRange latitude longitude range).leftLng <
      (getBoundingBoxFromCoordinatesAndRange latitude longitude range).rightLng := by
  have hcos := cos_latRadian_pos latitude hlat
  have hnum : 0 < range * 1609.344 / 1000.0 :=
    div_pos (by nlinarith) (by norm_num)
  have hdlat : 0 < range * 1609.344 / 1000.0 / 110.574235 :=
    div_pos hnum (by norm_num)
  have hdlng : 0 < range * 1609.344 / 1000.0 /
      (110.572833 * Real.cos (latitude * Real.pi / 180)) :=
    div_pos hnum (mul_pos (by norm_num) hcos)
  simp only [getBoundingBoxFromCoordinatesAndRange]
  constructor <;> linarith

/-- Witness for C6 at latitude 0, longitude 0, range 1. -/
theorem getBoundingBox_ordered_witness :
    |(0 : ℝ)| < 90 ∧ (0 : ℝ) < 1 ∧
    ((getBoundingBoxFromCoordinatesAndRange 0 0 1).bottomLat <
        (getBoundingBoxFromCoordinatesAndRange 0 0 1).topLat ∧
      (getBoundingBoxFromCoordinatesAndRange 0 0 1).leftLng <
        (getBoundingBoxFromCoordinatesAndRange 0 0 1).rightLng) :=
  ⟨by norm_num, by norm_num, getBoundingBox_ordered 0 0 1 (by norm_num) (by norm_num)⟩

/-- Bounding boxes around the same center nest as the range grows. -/
theorem boundingBox_nested (latitude longitude r1 r2 : ℝ) (hlat : |latitude| < 90)
    (h1 : 0 < r1) (h12 : r1 < r2) :
    (getBoundingBoxFromCoordinatesAndRange latitude longitude r2).bottomLat ≤
        (getBoundingBoxFromCoordinatesAndRange latitude longitude r1).bottomLat ∧
      (getBoundingBoxFromCoordinatesAndRange latitude longitude r1).topLat ≤
        (getBoundingBoxFromCoordinatesAndRange latitude longitude r2).topLat ∧
      (getBoundingBoxFromCoordinatesAndRange latitude longitude r2).leftLng ≤
        (getBoundingBoxFromCoordinatesAndRange latitude longitude r1).leftLng ∧
      (getBoundingBoxFromCoordinatesAndRange latitude longitude r1).rightLng ≤
        (getBoundingBoxFromCoordinatesAndRange latitude longitude r2).rightLng := by
  have hcos := cos_latRadian_pos latitude hlat
  have hnum : r1 * 1609.344 / 1000.0 ≤ r2 * 1609.344 / 1000.0 := by
    rw [div_le_div_iff_of_pos_right (by norm_num : (0 : ℝ) < 1000.0)]
    nlinarith
  have hdlat : r1 * 1609.344 / 1000.0 / 110.574235 ≤
      r2 * 1609.344 / 1000.0 / 110.574235 := by
    rw [div_le_div_iff_of_pos_right (by norm_num : (0 : ℝ) < 110.574235)]
    exact hnum
  have hdlng : r1 * 1609.344 / 1000.0 /
        (110.572833 * Real.cos (latitude * Real.pi / 180)) ≤
      r2 * 1609.344 / 1000.0 /
        (110.572833 * Real.cos (latitude * Real.pi / 180)) := by
    rw [div_le_div_iff_of_pos_right (mul_pos (by norm_num) hcos)]
    exact hnum
  simp only [getBoundingBoxFromCoordinatesAndRange]
  refine ⟨by linarith, by linarith, by linarith, by linarith⟩

/-- C5: for a fixed query point strictly inside the poles and ranges
`0 < r1 < r2`, every segment returned for range `r1` is also returned for
range `r2`. -/
theorem getSidewalksInRadius_mono (walkspanTable : List SidewalkRow)
    (latitude longitude r1 r2 : ℝ) (hlat : |latitude| < 90)
    (h1 : 0 < r1) (h12 : r1 < r2) :
    getSidewalksInRadius walkspanTable latitude longitude r1 ⊆
      getSidewalksInRadius walkspanTable latitude longitude r2 := by
  obtain ⟨hbot, htop, hleft, hright⟩ :=
    boundingBox_nested latitude longitude r1 r2 hlat h1 h12
  intro s hs
  simp only [getSidewalksInRadius, List.mem_filter, decide_eq_true_eq,
    inRadiusPred] at hs ⊢
  refine ⟨hs.1, ?_⟩
  rcases hs.2 with hstart | hend
  · exact Or.inl ⟨le_trans hbot hstart.1, le_trans hstart.2.1 htop,
      le_trans hleft hstart.2.2.1, le_trans hstart.2.2.2 hright⟩
  · exact Or.inr ⟨le_trans hbot hend.1, le_trans hend.2.1 htop,
      le_trans hleft hend.2.2.1, le_trans hend.2.2.2 hright⟩

/-- Witness for C5 at a one-row table, query point (0, 0), ranges 1 and 2. -/
theorem getSidewalksInRadius_mono_witness :
    |(0 : ℝ)| < 90 ∧ (0 : ℝ) < 1 ∧ (1 : ℝ) < 2 ∧
    getSidewalksInRadius [sampleRow] 0 0 1 ⊆
      getSidewalksInRadius [sampleRow] 0 0 2 :=
  ⟨by norm_num, by norm_num, by norm_num,
    getSidewalksInRadius_mono [sampleRow] 0 0 1 2 (by norm_num) (by norm_num)
      (by norm_num)⟩

/-- C4: a stored segment is returned by `getSidewalksInRadius` exactly when
its start endpoint or its end endpoint lies within the derived bounding box,
with inclusive comparisons on all four bounds; a stored segment with neither
endpoint in the box is excluded. -/
theorem getSidewalksInRadius_mem_iff (walkspanTable : List SidewalkRow)
    (latitude longitude range : ℝ) (s : SidewalkRow) (hs : s ∈ walkspanTable) :
    s ∈ getSidewalksInRadius walkspanTable latitude longitude range ↔
      (((getBoundingBoxFromCoordinatesAndRange latitude longitude
            range).bottomLat ≤ s.sidewalk_starting_latitude ∧
        s.sidewalk_starting_latitude ≤
          (getBoundingBoxFromCoordinatesAndRange latitude longitude
            range).topLat ∧
        (getBoundingBoxFromCoordinatesAndRange latitude longitude
            range).leftLng ≤ s.sidewalk_starting_longitude ∧
        s.sidewalk_starting_longitude ≤
          (getBoundingBoxFromCoordinatesAndRange latitude longitude
            range).rightLng) ∨
      ((getBoundingBoxFromCoordinatesAndRange latitude longitude
            range).bottomLat ≤ s.sidewalk_ending_latitude ∧
        s.sidewalk_ending_latitude ≤
          (getBoundingBoxFromCoordinatesAndRange latitude longitude
            range).topLat ∧
        (getBoundingBoxFromCoordinatesAndRange latitude longitude
            range).leftLng ≤ s.sidewalk_ending_longitude ∧
        s.sidewalk_ending_longitude ≤
          (getBoundingBoxFromCoordinatesAndRange latitude longitude
            range).rightLng)) := by
  simp only [getSidewalksInRadius, List.mem_filter, decide_eq_true_eq,
    inRadiusPred]
  exact and_iff_right hs

/-- Witness for C4 at a one-row table, query point (0, 0), range 1. -/
theorem getSidewalksInRadius_mem_iff_witness :
    sampleRow ∈ [sampleRow] ∧
    (sampleRow ∈ getSidewalksInRadius [sampleRow] 0 0 1 ↔
      (((getBoundingBoxFromCoordinatesAndRange 0 0 1).bottomLat ≤
          sampleRow.sidewalk_starting_latitude ∧
        sampleRow.sidewalk_starting_latitude ≤
          (getBoundingBoxFromCoordinatesAndRange 0 0 1).topLat ∧
        (getBoundingBoxFromCoordinatesAndRange 0 0 1).leftLng ≤
          sampleRow.sidewalk_starting_longitude ∧
        sampleRow.sidewalk_starting_longitude ≤
          (getBoundingBoxFromCoordinatesAndRange 0 0 1).rightLng) ∨
      ((getBoundingBoxFromCoordinatesAndRange 0 0 1).bottomLat ≤
          sampleRow.sidewalk_ending_latitude ∧
        sampleRow.sidewalk_ending_latitude ≤
          (getBoundingBoxFromCoordinatesAndRange 0 0 1).topLat ∧
        (getBoundingBoxFromCoordinatesAndRange 0 0 1).leftLng ≤
          sampleRow.sidewalk_ending_longitude ∧
        sampleRow.sidewalk_ending_longitude ≤
          (getBoundingBoxFromCoordinatesAndRange 0 0 1).rightLng))) :=
  ⟨List.mem_singleton_self sampleRow,
    getSidewalksInRadius_mem_iff [sampleRow] 0 0 1 sampleRow
      (List.mem_singleton_self sampleRow)⟩

/-- C9: for a negative range and a latitude strictly inside the poles, the
bounding box is inverted on both axes and the range query returns the empty
list, as no coordinate can satisfy both inclusive bounds of an inverted
interval. -/
theorem getSidewalksInRadius_negative_range (walkspanTable : List SidewalkRow)
    (latitude longitude range : ℝ) (hlat : |latitude| < 90) (hr : range < 0) :
    (getBoundingBoxFromCoordinatesAndRange latitude longitude range).topLat <
        (getBoundingBoxFromCoordinatesAndRange latitude longitude
          range).bottomLat ∧
      (getBoundingBoxFromCoordinatesAndRange latitude longitude
          range).rightLng <
        (getBoundingBoxFromCoordinatesAndRange latitude longitude
          range).leftLng ∧
      getSidewalksInRadius walkspanTable latitude longitude range = [] := by
  have hcos := cos_latRadian_pos latitude hlat
  have hnum : range * 1609.344 / 1000.0 < 0 :=
    div_neg_of_neg_of_pos (by nlinarith) (by norm_num)
  have hdlat : range * 1609.344 / 1000.0 / 110.574235 < 0 :=
    div_neg_of_neg_of_pos hnum (by norm_num)
  have hdlng : range * 1609.344 / 1000.0 /
      (110.572833 * Real.cos (latitude * Real.pi / 180)) < 0 :=
    div_neg_of_neg_of_pos hnum (mul_pos (by norm_num) hcos)
  have htop : (getBoundingBoxFromCoordinatesAndRange latitude longitude
      range).topLat <
      (getBoundingBoxFromCoordinatesAndRange latitude longitude
        range).bottomLat := by
    simp only [getBoundingBoxFromCoordinatesAndRange]
    linarith
  have hlng : (getBoundingBoxFromCoordinatesAndRange latitude longitude
      range).rightLng <
      (getBoundingBoxFromCoordinatesAndRange latitude longitude
        range).leftLng := by
    simp only [getBoundingBoxFromCoordinatesAndRange]
    linarith
  refine ⟨htop, hlng, ?_⟩
  simp only [getSidewalksInRadius]
  rw [List.filter_eq_nil_iff]
  intro a _
  simp only [decide_eq_true_eq, inRadiusPred]
  rintro (hstart | hend)
  · exact absurd (le_trans hstart.1 hstart.2.1) (not_le.mpr htop)
  · exact absurd (le_trans hend.1 hend.2.1) (not_le.mpr htop)

/-- Witness for C9 at a one-row table, query point (0, 0), range -1. -/
theorem getSidewalksInRadius_negative_range_witness :
    |(0 : ℝ)| < 90 ∧ (-1 : ℝ) < 0 ∧
    ((getBoundingBoxFromCoordinatesAndRange 0 0 (-1)).topLat <
        (getBoundingBoxFromCoordinatesAndRange 0 0 (-1)).bottomLat ∧
      (getBoundingBoxFromCoordinatesAndRange 0 0 (-1)).rightLng <
        (getBoundingBoxFromCoordinatesAndRange 0 0 (-1)).leftLng ∧
      getSidewalksInRadius [sampleRow] 0 0 (-1) = []) :=
  ⟨by norm_num, by norm_num,
    getSidewalksInRadius_negative_range [sampleRow] 0 0 (-1) (by norm_num)
      (by norm_num)⟩

end Walkspan
